import Mathlib

/-!
Verification of the gateway client `util.py`: a thin HTTP client for a
mobile-money payment gateway.  The module is embedded shallowly: JSON
values form an inductive type, the network transport is an oracle
mapping each outbound request to its outcome, and each Python function
becomes a pure Lean function returning the list of outbound requests it
issued (in order) together with its result, where a raised Python
exception is an `Except.error`.
-/

set_option maxRecDepth 8192

namespace Paypack

/-- JSON values, as decoded by `response.json()` or built for `json.dumps`.
Numbers are modelled as integers (no claim exercises fractional values). -/
inductive Json where
  | null
  | bool (b : Bool)
  | num (n : Int)
  | str (s : String)
  | arr (xs : List Json)
  | obj (kvs : List (String × Json))
deriving Repr

/-- Serialization of one character inside a JSON string literal, as
`json.dumps` does it for the escapes the client can produce. -/
def escapeChar (c : Char) : String :=
  if c = '"' then "\\\""
  else if c = '\\' then "\\\\"
  else if c = '\n' then "\\n"
  else if c = '\t' then "\\t"
  else if c = '\r' then "\\r"
  else String.singleton c

/-- A JSON string literal with surrounding double quotes, as `json.dumps`
renders it. -/
def dumpString (s : String) : String :=
  "\"" ++ String.join (s.toList.map escapeChar) ++ "\""

mutual

/-- Python `json.dumps` with its default separators `", "` and `": "`. -/
def Json.dumps : Json → String
  | .null => "null"
  | .bool true => "true"
  | .bool false => "false"
  | .num n => toString n
  | .str s => dumpString s
  | .arr xs => "[" ++ Json.dumpsArr xs ++ "]"
  | .obj kvs => "\x7b" ++ Json.dumpsObj kvs ++ "\x7d"

/-- Comma-separated serialization of array elements. -/
def Json.dumpsArr : List Json → String
  | [] => ""
  | [x] => Json.dumps x
  | x :: xs => Json.dumps x ++ ", " ++ Json.dumpsArr xs

/-- Comma-separated serialization of object members. -/
def Json.dumpsObj : List (String × Json) → String
  | [] => ""
  | [(k, v)] => dumpString k ++ ": " ++ Json.dumps v
  | (k, v) :: kvs => dumpString k ++ ": " ++ Json.dumps v ++ ", " ++ Json.dumpsObj kvs

end

mutual

/-- Python `repr` of a decoded JSON value (containers print with brackets,
strings with single quotes, `None`/`True`/`False` capitalized). -/
def pyRepr : Json → String
  | .null => "None"
  | .bool true => "True"
  | .bool false => "False"
  | .num n => toString n
  | .str s => String.singleton (Char.ofNat 39) ++ s ++ String.singleton (Char.ofNat 39)
  | .arr xs => "[" ++ pyReprArr xs ++ "]"
  | .obj kvs => "\x7b" ++ pyReprObj kvs ++ "\x7d"

/-- Comma-separated `repr` of list elements. -/
def pyReprArr : List Json → String
  | [] => ""
  | [x] => pyRepr x
  | x :: xs => pyRepr x ++ ", " ++ pyReprArr xs

/-- Comma-separated `repr` of dict items. -/
def pyReprObj : List (String × Json) → String
  | [] => ""
  | [(k, v)] => pyRepr (.str k) ++ ": " ++ pyRepr v
  | (k, v) :: kvs => pyRepr (.str k) ++ ": " ++ pyRepr v ++ ", " ++ pyReprObj kvs

end

/-- Python `str()` applied to a decoded JSON value, as an f-string such as
`f'Bearer \x7baccess_token\x7d'` does. -/
def pyStr : Json → String
  | .str s => s
  | j => pyRepr j

/-- Python exceptions the client can raise. -/
inductive PyErr where
  | netError
  | decodeError
  | keyError (k : String)
  | typeError
deriving Repr, DecidableEq

/-- Python subscription `j["k"]` on a decoded JSON value: a `KeyError` on a
dict without the key, a `TypeError` on anything that is not a dict. -/
def Json.getItem (j : Json) (k : String) : Except PyErr Json :=
  match j with
  | .obj kvs =>
      match kvs.lookup k with
      | some v => .ok v
      | none => .error (.keyError k)
  | _ => .error .typeError

/-- An outbound HTTP request as issued by `requests.request`. -/
structure Request where
  method : String
  url : String
  headers : List (String × String)
  body : String
deriving Repr, DecidableEq

/-- Outcome of one transport round trip: a network-level failure raised by
`requests`, or a response with a status code and a body that either decodes
to a JSON value or makes `response.json()` raise. -/
inductive TransportResult where
  | netFail
  | resp (status : Nat) (body : Option Json)

/-- The network oracle: the server behaviour, as seen per request. -/
def Net : Type := Request → TransportResult

/-- `response.json()` composed with the transport outcome: a network
failure or undecodable body raises, otherwise the decoded value. -/
def decodeOutcome : TransportResult → Except PyErr Json
  | .netFail => .error .netError
  | .resp _ none => .error .decodeError
  | .resp _ (some j) => .ok j

/-- `app_id` constant from util.py line 34. -/
def app_id : String := "17eabc50-c552-11f0-9c11-deadd43720af"

/-- `app_secret` constant from util.py line 35. -/
def app_secret : String :=
  "9491032d457e34ef97a330564d321fd6da39a3ee5e6b4b0d3255bfef95601890afd80709"

/-- Authorization endpoint URL (util.py line 39). -/
def authorizeUrl : String := "https://payments.paypack.rw/api/auth/agents/authorize"

/-- Cash-in endpoint URL (util.py line 54). -/
def cashinUrl : String := "https://payments.paypack.rw/api/transactions/cashin"

/-- Cash-out endpoint URL (util.py line 70). -/
def cashoutUrl : String := "https://payments.paypack.rw/api/transactions/cashout"

/-- Find-transaction URL with the reference interpolated by the f-string
on util.py line 86. -/
def findUrl (ref : String) : String :=
  "https://payments.paypack.rw/api/transactions/find/" ++ ref

/-- The two headers common to every request (Content-Type, Accept). -/
def baseHeaders : List (String × String) :=
  [("Content-Type", "application/json"), ("Accept", "application/json")]

/-- Headers of the authenticated requests: the common pair plus the
bearer header built by the f-string from the extracted access token. -/
def bearerHeaders (tok : Json) : List (String × String) :=
  [("Content-Type", "application/json"), ("Accept", "application/json"),
   ("Authorization", "Bearer " ++ pyStr tok)]

/-- The authorization payload `json.dumps(\x7bclient_id, client_secret\x7d)`
(util.py lines 40-43). -/
def authPayload : String :=
  Json.dumps (.obj [("client_id", .str app_id), ("client_secret", .str app_secret)])

/-- The request `authorize` issues (util.py line 48); it does not depend on
the environment. -/
def authReq : Request :=
  ⟨"POST", authorizeUrl, baseHeaders, authPayload⟩

/-- `authorize()` (util.py lines 38-49): one POST to the authorization
endpoint, returning `response.json()` unmodified. -/
def authorize (env : Net) : List Request × Except PyErr Json :=
  ([authReq], decodeOutcome (env authReq))

/-- The transfer payload `json.dumps(\x7bamount, number\x7d)` shared by the
cash-in and cash-out bodies (util.py lines 55-58 and 71-74). -/
def transferPayload (number amount : Json) : String :=
  Json.dumps (.obj [("amount", amount), ("number", number)])

/-- The second request of `cashin` (util.py line 64). -/
def cashinReq (number amount tok : Json) : Request :=
  ⟨"POST", cashinUrl, bearerHeaders tok, transferPayload number amount⟩

/-- `cashin(number, amount)` (util.py lines 51-65): a fresh `authorize`,
extraction of `auth["access"]`, then a POST to the cash-in endpoint. -/
def cashin (env : Net) (number amount : Json) : List Request × Except PyErr Json :=
  match authorize env with
  | (tr, .error e) => (tr, .error e)
  | (tr, .ok auth) =>
      match auth.getItem "access" with
      | .error e => (tr, .error e)
      | .ok tok =>
          let req := cashinReq number amount tok
          (tr ++ [req], decodeOutcome (env req))

/-- The second request of `cashout` (util.py line 80). -/
def cashoutReq (number amount tok : Json) : Request :=
  ⟨"POST", cashoutUrl, bearerHeaders tok, transferPayload number amount⟩

/-- `cashout(number, amount)` (util.py lines 67-81): identical to `cashin`
except for the target URL. -/
def cashout (env : Net) (number amount : Json) : List Request × Except PyErr Json :=
  match authorize env with
  | (tr, .error e) => (tr, .error e)
  | (tr, .ok auth) =>
      match auth.getItem "access" with
      | .error e => (tr, .error e)
      | .ok tok =>
          let req := cashoutReq number amount tok
          (tr ++ [req], decodeOutcome (env req))

/-- The second request of `find_transaction` (util.py line 93): a GET with
the interpolated URL; `data` is the empty dict, so the body is empty. -/
def findReq (ref : String) (tok : Json) : Request :=
  ⟨"GET", findUrl ref, bearerHeaders tok, ""⟩

/-- `find_transaction(ref)` (util.py lines 83-94): a fresh `authorize`,
extraction of `auth["access"]`, then a GET to the find endpoint, returning
the decoded body verbatim. -/
def find_transaction (env : Net) (ref : String) : List Request × Except PyErr Json :=
  match authorize env with
  | (tr, .error e) => (tr, .error e)
  | (tr, .ok auth) =>
      match auth.getItem "access" with
      | .error e => (tr, .error e)
      | .ok tok =>
          let req := findReq ref tok
          (tr ++ [req], decodeOutcome (env req))

/-- The literal reference of the module-level demonstration call
(util.py line 96). -/
def testRef : String := "dbed4dbb-f1bd-433d-ba57-e383c5faa96b"

/-- Top-level module code (util.py lines 96-97):
`test = find_transaction("dbed4dbb-...")` then `print(test)`.  Returns the
trace of outbound requests and, on success, the value bound to `test`
together with the line printed by `print`. -/
def moduleLoad (env : Net) : List Request × Except PyErr (Json × String) :=
  match find_transaction env testRef with
  | (tr, .error e) => (tr, .error e)
  | (tr, .ok j) => (tr, .ok (j, pyStr j))

/-- The declared `AuthResponse` pydantic shape (util.py lines 15-18):
string `access`, string `refresh`, integer `expires`. -/
def AuthResponseShape : Json → Bool
  | .obj kvs =>
      (match kvs.lookup "access" with | some (.str _) => true | _ => false)
      && (match kvs.lookup "refresh" with | some (.str _) => true | _ => false)
      && (match kvs.lookup "expires" with | some (.num _) => true | _ => false)
  | _ => false

/-- The declared `Transaction` pydantic shape in force (util.py lines
20-29): string `ref`, numeric `amount` and `fee`, string `kind`,
`provider`, `client` and `merchant`, object `metadata`, and a `timestamp`
carried as a string on the wire. -/
def TransactionShape : Json → Bool
  | .obj kvs =>
      (match kvs.lookup "ref" with | some (.str _) => true | _ => false)
      && (match kvs.lookup "amount" with | some (.num _) => true | _ => false)
      && (match kvs.lookup "fee" with | some (.num _) => true | _ => false)
      && (match kvs.lookup "kind" with | some (.str _) => true | _ => false)
      && (match kvs.lookup "provider" with | some (.str _) => true | _ => false)
      && (match kvs.lookup "client" with | some (.str _) => true | _ => false)
      && (match kvs.lookup "metadata" with | some (.obj _) => true | _ => false)
      && (match kvs.lookup "merchant" with | some (.str _) => true | _ => false)
      && (match kvs.lookup "timestamp" with | some (.str _) => true | _ => false)
  | _ => false

/-- Server behaviour answering every request with a number, which matches
neither declared response shape. -/
def envC8a : Net := fun _ => .resp 200 (some (.num 7))

/-- Server behaviour whose authorization response carries an access token
but whose other responses are a bare number. -/
def envC8b : Net := fun r =>
  if r.url = authorizeUrl then .resp 200 (some (.obj [("access", .str "t")]))
  else .resp 200 (some (.num 5))

/-- Substitution of the cash-out endpoint for the cash-in endpoint on a
request, leaving every other request untouched. -/
def toCashout (r : Request) : Request :=
  if r.url = cashinUrl then { r with url := cashoutUrl } else r

/-- Two transport outcomes that may differ only in the HTTP status code. -/
def sameBody : TransportResult → TransportResult → Prop
  | .netFail, .netFail => True
  | .resp _ b, .resp _ b2 => b = b2
  | _, _ => False
/-- Server behaviour used to instantiate C1: the authorization endpoint
answers with an access token, every other request with a transaction. -/
def envC1 : Net := fun r =>
  if r.url = authorizeUrl then .resp 200 (some (.obj [("access", .str "tokA")]))
  else .resp 201 (some (.obj [("ref", .str "r1")]))


/-- Server behaviour used to instantiate C2: the authorization endpoint
answers with a JSON object that lacks the `access` key. -/
def envC2 : Net := fun _ => .resp 200 (some (.obj [("token", .str "x")]))


/-- Server behaviour used to instantiate C3: every request is answered
with a well-formed authorization response. -/
def envC3 : Net := fun _ =>
  .resp 200 (some (.obj [("access", .str "tokA"), ("refresh", .str "tokR"),
    ("expires", .num 3600)]))


/-- Server behaviour used to instantiate C4: the find endpoint answers
with a not-found message rather than a transaction. -/
def envC4 : Net := fun r =>
  if r.url = authorizeUrl then .resp 200 (some (.obj [("access", .str "tokA")]))
  else .resp 404 (some (.obj [("message", .str "transaction not found")]))


/-- Server behaviour used to instantiate C5. -/
def envC5 : Net := fun r =>
  if r.url = authorizeUrl then .resp 200 (some (.obj [("access", .str "tokA")]))
  else .resp 200 (some .null)


/-- Two server behaviours for C6, identical except that the second answers
every request with status 503 instead of 200. -/
def envC6a : Net := fun r =>
  if r.url = authorizeUrl then .resp 200 (some (.obj [("access", .str "tokA")]))
  else .resp 200 (some (.obj [("ref", .str "r1")]))


/-- Status-503 variant of `envC6a`. -/
def envC6b : Net := fun r =>
  if r.url = authorizeUrl then .resp 503 (some (.obj [("access", .str "tokA")]))
  else .resp 503 (some (.obj [("ref", .str "r1")]))


/-- Server behaviour used to instantiate C7: every request fails at the
transport level. -/
def envC7 : Net := fun _ => .netFail


/-- Server behaviour used to instantiate C8. -/
def envC8 : Net := fun r =>
  if r.url = authorizeUrl then .resp 200 (some (.obj [("access", .str "tokA")]))
  else .resp 200 (some (.str "ok"))


/-- Server behaviour used to instantiate C10. -/
def envC10 : Net := fun r =>
  if r.url = authorizeUrl then .resp 200 (some (.obj [("access", .str "tokA")]))
  else .resp 200 (some (.obj [("message", .str "transaction not found")]))

/-- C1: a call to `cashin` or `cashout` whose fresh `authorize` call decodes
to a value with an `access` field issues exactly two outbound calls, in
order: first the POST to the authorization endpoint, then a POST to the
cash-in (resp. cash-out) endpoint whose Authorization header is exactly
`Bearer ` followed by the access field, and whose body is the JSON
serialization of the given amount and number. -/
theorem cashin_cashout_two_calls (env : Net) (number amount : Json) (st : Nat)
    (auth : Json) (tok : String)
    (h1 : env authReq = .resp st (some auth))
    (h2 : auth.getItem "access" = .ok (.str tok)) :
    cashin env number amount =
      ([authReq, cashinReq number amount (.str tok)],
        decodeOutcome (env (cashinReq number amount (.str tok))))
    ∧ cashout env number amount =
      ([authReq, cashoutReq number amount (.str tok)],
        decodeOutcome (env (cashoutReq number amount (.str tok))))
    ∧ authReq.method = "POST" ∧ authReq.url = authorizeUrl
    ∧ cashinReq number amount (.str tok) =
        ⟨"POST", cashinUrl,
          [("Content-Type", "application/json"), ("Accept", "application/json"),
           ("Authorization", "Bearer " ++ tok)],
          Json.dumps (.obj [("amount", amount), ("number", number)])⟩
    ∧ cashoutReq number amount (.str tok) =
        ⟨"POST", cashoutUrl,
          [("Content-Type", "application/json"), ("Accept", "application/json"),
           ("Authorization", "Bearer " ++ tok)],
          Json.dumps (.obj [("amount", amount), ("number", number)])⟩ := by
  refine ⟨?_, ?_, rfl, rfl, rfl, rfl⟩ <;>
    simp [cashin, cashout, authorize, h1, decodeOutcome, h2]

theorem cashin_cashout_two_calls_witness :
    cashin envC1 (.str "0781234567") (.num 1000) =
      ([authReq, cashinReq (.str "0781234567") (.num 1000) (.str "tokA")],
        .ok (.obj [("ref", .str "r1")])) :=
  ((cashin_cashout_two_calls envC1 (.str "0781234567") (.num 1000) 200
      (.obj [("access", .str "tokA")]) "tokA" rfl rfl).1).trans rfl

/-- C2: when the value `authorize` returns has no `access` field, the
subscription raises before the target request is built: the trace holds
only the authorization call and the error propagates. -/
theorem no_second_call_without_access (env : Net) (number amount : Json)
    (ref : String) (st : Nat) (auth : Json) (e : PyErr)
    (h1 : env authReq = .resp st (some auth))
    (h2 : auth.getItem "access" = .error e) :
    cashin env number amount = ([authReq], .error e)
    ∧ cashout env number amount = ([authReq], .error e)
    ∧ find_transaction env ref = ([authReq], .error e) := by
  refine ⟨?_, ?_, ?_⟩ <;>
    simp [cashin, cashout, find_transaction, authorize, decodeOutcome, h1, h2]

theorem no_second_call_without_access_witness :
    cashin envC2 (.str "0781234567") (.num 1000)
        = ([authReq], .error (.keyError "access"))
    ∧ cashout envC2 (.str "0781234567") (.num 1000)
        = ([authReq], .error (.keyError "access"))
    ∧ find_transaction envC2 "r1" = ([authReq], .error (.keyError "access")) :=
  no_second_call_without_access envC2 (.str "0781234567") (.num 1000) "r1" 200
    (.obj [("token", .str "x")]) (.keyError "access") rfl rfl

/-- C3: `authorize` issues exactly one POST to the authorization endpoint,
whose body is the JSON serialization of the embedded client_id and
client_secret constants, with no Authorization header, and returns the
decoded response body unmodified. -/
theorem authorize_single_post (env : Net) :
    (authorize env).1 = [authReq]
    ∧ authReq = ⟨"POST", authorizeUrl, baseHeaders, authPayload⟩
    ∧ authPayload =
        "\x7b\"client_id\": \"17eabc50-c552-11f0-9c11-deadd43720af\", \"client_secret\": \"9491032d457e34ef97a330564d321fd6da39a3ee5e6b4b0d3255bfef95601890afd80709\"\x7d"
    ∧ authReq.headers.lookup "Authorization" = none
    ∧ (∀ st j, env authReq = .resp st (some j) → (authorize env).2 = .ok j) := by
  refine ⟨rfl, rfl, by decide, by decide, ?_⟩
  intro st j h
  simp [authorize, h, decodeOutcome]

theorem authorize_single_post_witness :
    (authorize envC3).2 =
      .ok (.obj [("access", .str "tokA"), ("refresh", .str "tokR"),
        ("expires", .num 3600)]) :=
  (authorize_single_post envC3).2.2.2.2 200
    (.obj [("access", .str "tokA"), ("refresh", .str "tokR"), ("expires", .num 3600)])
    rfl

/-- C4: whatever JSON value the find endpoint's body decodes to — a found
transaction or a not-found message alike — `find_transaction` returns it
verbatim: no branch discriminates the declared union of outcome shapes. -/
theorem find_transaction_verbatim (env : Net) (ref : String) (st st2 : Nat)
    (auth tok j : Json)
    (h1 : env authReq = .resp st (some auth))
    (h2 : auth.getItem "access" = .ok tok)
    (h3 : env (findReq ref tok) = .resp st2 (some j)) :
    find_transaction env ref = ([authReq, findReq ref tok], .ok j) := by
  simp [find_transaction, authorize, decodeOutcome, h1, h2, h3]

theorem find_transaction_verbatim_witness :
    find_transaction envC4 "r1" =
      ([authReq, findReq "r1" (.str "tokA")],
        .ok (.obj [("message", .str "transaction not found")])) :=
  find_transaction_verbatim envC4 "r1" 200 404 (.obj [("access", .str "tokA")])
    (.str "tokA") (.obj [("message", .str "transaction not found")]) rfl rfl rfl

/-- C5: `find_transaction` issues a single GET whose URL interpolates the
reference verbatim after `/api/transactions/find/`; at the reference
`dbed4dbb-f1bd-433d-ba57-e383c5faa96b` the URL is exactly the fixed host
followed by `/api/transactions/find/dbed4dbb-f1bd-433d-ba57-e383c5faa96b`. -/
theorem find_transaction_path (env : Net) (ref : String) (st : Nat)
    (auth tok : Json)
    (h1 : env authReq = .resp st (some auth))
    (h2 : auth.getItem "access" = .ok tok) :
    find_transaction env ref =
      ([authReq, findReq ref tok], decodeOutcome (env (findReq ref tok)))
    ∧ (findReq ref tok).method = "GET"
    ∧ (findReq ref tok).url =
        "https://payments.paypack.rw/api/transactions/find/" ++ ref
    ∧ findUrl "dbed4dbb-f1bd-433d-ba57-e383c5faa96b" =
        "https://payments.paypack.rw/api/transactions/find/dbed4dbb-f1bd-433d-ba57-e383c5faa96b" := by
  refine ⟨?_, rfl, rfl, by decide⟩
  simp [find_transaction, authorize, decodeOutcome, h1, h2]

theorem find_transaction_path_witness :
    find_transaction envC5 "dbed4dbb-f1bd-433d-ba57-e383c5faa96b" =
      ([authReq, findReq "dbed4dbb-f1bd-433d-ba57-e383c5faa96b" (.str "tokA")],
        decodeOutcome (envC5 (findReq "dbed4dbb-f1bd-433d-ba57-e383c5faa96b" (.str "tokA"))))
    ∧ (findReq "dbed4dbb-f1bd-433d-ba57-e383c5faa96b" (.str "tokA")).url =
        "https://payments.paypack.rw/api/transactions/find/dbed4dbb-f1bd-433d-ba57-e383c5faa96b" :=
  ⟨(find_transaction_path envC5 "dbed4dbb-f1bd-433d-ba57-e383c5faa96b" 200
      (.obj [("access", .str "tokA")]) (.str "tokA") rfl rfl).1,
    ((find_transaction_path envC5 "dbed4dbb-f1bd-433d-ba57-e383c5faa96b" 200
      (.obj [("access", .str "tokA")]) (.str "tokA") rfl rfl).2.2.1).trans
      (by decide)⟩

/-- C6: no operation inspects the HTTP status code: two server behaviours
whose outcomes agree up to status produce identical traces and results for
every operation, so a 4xx/5xx body is decoded and returned exactly as a
success would be. -/
theorem status_never_inspected (env env2 : Net) (number amount : Json)
    (ref : String)
    (h : ∀ r, sameBody (env r) (env2 r)) :
    authorize env = authorize env2
    ∧ cashin env number amount = cashin env2 number amount
    ∧ cashout env number amount = cashout env2 number amount
    ∧ find_transaction env ref = find_transaction env2 ref := by
  have hd : ∀ r, decodeOutcome (env r) = decodeOutcome (env2 r) := by
    intro r
    have hr := h r
    revert hr
    cases env r with
    | netFail =>
        cases env2 r with
        | netFail => intro _; rfl
        | resp s b => intro hr; exact hr.elim
    | resp s b =>
        cases env2 r with
        | netFail => intro hr; exact hr.elim
        | resp s2 b2 =>
            intro hr
            have hb : b = b2 := hr
            cases hb
            cases b with
            | none => rfl
            | some j => rfl
  refine ⟨?_, ?_, ?_, ?_⟩ <;>
    simp only [authorize, cashin, cashout, find_transaction, hd]

theorem status_never_inspected_witness :
    cashin envC6a (.str "0781234567") (.num 1000)
        = cashin envC6b (.str "0781234567") (.num 1000)
    ∧ find_transaction envC6a "r1" = find_transaction envC6b "r1" :=
  ⟨(status_never_inspected envC6a envC6b (.str "0781234567") (.num 1000) "r1"
      (fun r => by by_cases hc : r.url = authorizeUrl <;>
        simp [envC6a, envC6b, hc, sameBody])).2.1,
    (status_never_inspected envC6a envC6b (.str "0781234567") (.num 1000) "r1"
      (fun r => by by_cases hc : r.url = authorizeUrl <;>
        simp [envC6a, envC6b, hc, sameBody])).2.2.2⟩

/-- The trace of `cashin` is the authorization call alone, or the
authorization call followed by one cash-in request. -/
theorem cashin_trace_cases (env : Net) (number amount : Json) :
    (cashin env number amount).1 = [authReq]
    ∨ ∃ tok, (cashin env number amount).1 = [authReq, cashinReq number amount tok] := by
  cases hdo : decodeOutcome (env authReq) with
  | error e => left; simp [cashin, authorize, hdo]
  | ok auth =>
      cases hg : auth.getItem "access" with
      | error e => left; simp [cashin, authorize, hdo, hg]
      | ok tok => right; exact ⟨tok, by simp [cashin, authorize, hdo, hg]⟩

/-- The trace of `cashout` is the authorization call alone, or the
authorization call followed by one cash-out request. -/
theorem cashout_trace_cases (env : Net) (number amount : Json) :
    (cashout env number amount).1 = [authReq]
    ∨ ∃ tok, (cashout env number amount).1 = [authReq, cashoutReq number amount tok] := by
  cases hdo : decodeOutcome (env authReq) with
  | error e => left; simp [cashout, authorize, hdo]
  | ok auth =>
      cases hg : auth.getItem "access" with
      | error e => left; simp [cashout, authorize, hdo, hg]
      | ok tok => right; exact ⟨tok, by simp [cashout, authorize, hdo, hg]⟩

/-- The trace of `find_transaction` is the authorization call alone, or
the authorization call followed by one find request. -/
theorem find_trace_cases (env : Net) (ref : String) :
    (find_transaction env ref).1 = [authReq]
    ∨ ∃ tok, (find_transaction env ref).1 = [authReq, findReq ref tok] := by
  cases hdo : decodeOutcome (env authReq) with
  | error e => left; simp [find_transaction, authorize, hdo]
  | ok auth =>
      cases hg : auth.getItem "access" with
      | error e => left; simp [find_transaction, authorize, hdo, hg]
      | ok tok => right; exact ⟨tok, by simp [find_transaction, authorize, hdo, hg]⟩

/-- The authorization URL differs from the find URL whatever reference is
interpolated: the two already differ within their first 50 characters. -/
theorem authorizeUrl_ne_findUrl (ref : String) : ¬ authorizeUrl = findUrl ref := by
  intro h
  have h2 := congrArg (fun s => s.data.take 50) h
  simp only [findUrl] at h2
  rw [show ("https://payments.paypack.rw/api/transactions/find/" ++ ref).data
      = "https://payments.paypack.rw/api/transactions/find/".data ++ ref.data from rfl] at h2
  rw [List.take_append_of_le_length (by decide)] at h2
  exact absurd h2 (by decide)

/-- C7: no operation retries: within one invocation the URLs of the trace
are pairwise distinct, at most two requests are issued, and a transport
failure of the first call surfaces as a single error with no second
attempt. -/
theorem no_retry (env : Net) (number amount : Json) (ref : String) :
    (authorize env).1 = [authReq]
    ∧ ((cashin env number amount).1.map Request.url).Nodup
    ∧ ((cashout env number amount).1.map Request.url).Nodup
    ∧ ((find_transaction env ref).1.map Request.url).Nodup
    ∧ (cashin env number amount).1.length ≤ 2
    ∧ (cashout env number amount).1.length ≤ 2
    ∧ (find_transaction env ref).1.length ≤ 2
    ∧ (env authReq = .netFail →
        cashin env number amount = ([authReq], .error .netError)
        ∧ cashout env number amount = ([authReq], .error .netError)
        ∧ find_transaction env ref = ([authReq], .error .netError)) := by
  refine ⟨rfl, ?_, ?_, ?_, ?_, ?_, ?_, ?_⟩
  · rcases cashin_trace_cases env number amount with h | ⟨tok, h⟩ <;> rw [h]
    · decide
    · simp [authReq, cashinReq, authorizeUrl, cashinUrl]
  · rcases cashout_trace_cases env number amount with h | ⟨tok, h⟩ <;> rw [h]
    · decide
    · simp [authReq, cashoutReq, authorizeUrl, cashoutUrl]
  · rcases find_trace_cases env ref with h | ⟨tok, h⟩ <;> rw [h]
    · decide
    · simp only [List.map_cons, List.map_nil]
      simp [authReq, findReq]
      exact authorizeUrl_ne_findUrl ref
  · rcases cashin_trace_cases env number amount with h | ⟨tok, h⟩ <;> rw [h] <;> simp
  · rcases cashout_trace_cases env number amount with h | ⟨tok, h⟩ <;> rw [h] <;> simp
  · rcases find_trace_cases env ref with h | ⟨tok, h⟩ <;> rw [h] <;> simp
  · intro hn
    refine ⟨?_, ?_, ?_⟩ <;>
      simp [cashin, cashout, find_transaction, authorize, hn, decodeOutcome]

theorem no_retry_witness :
    cashin envC7 (.str "0781234567") (.num 1000) = ([authReq], .error .netError)
    ∧ cashout envC7 (.str "0781234567") (.num 1000) = ([authReq], .error .netError)
    ∧ find_transaction envC7 "r1" = ([authReq], .error .netError) :=
  (no_retry envC7 (.str "0781234567") (.num 1000) "r1").2.2.2.2.2.2.2 rfl

/-- C8: no operation validates its response against the declared shapes:
every operation returns the raw decoded JSON value for any well-formed
body, and in particular values violating the declared `AuthResponse` and
`Transaction` shapes are returned as-is. -/
theorem no_shape_validation (env : Net) (number amount : Json)
    (st st2 : Nat) (auth tok j : Json)
    (h1 : env authReq = .resp st (some auth))
    (h2 : auth.getItem "access" = .ok tok)
    (h3 : env (cashinReq number amount tok) = .resp st2 (some j)) :
    (authorize env).2 = .ok auth
    ∧ (cashin env number amount).2 = .ok j
    ∧ (∃ env2 bad, AuthResponseShape bad = false ∧ (authorize env2).2 = .ok bad)
    ∧ (∃ env3 nt, TransactionShape nt = false
        ∧ (cashin env3 number amount).2 = .ok nt) := by
  refine ⟨?_, ?_, ⟨envC8a, .num 7, rfl, rfl⟩, ⟨envC8b, .num 5, rfl, rfl⟩⟩
  · simp [authorize, h1, decodeOutcome]
  · simp [cashin, authorize, h1, decodeOutcome, h2, h3]

theorem no_shape_validation_witness :
    (authorize envC8).2 = .ok (.obj [("access", .str "tokA")])
    ∧ (cashin envC8 (.str "0781234567") (.num 1000)).2 = .ok (.str "ok") :=
  ⟨(no_shape_validation envC8 (.str "0781234567") (.num 1000) 200 200
      (.obj [("access", .str "tokA")]) (.str "tokA") (.str "ok") rfl rfl rfl).1,
    (no_shape_validation envC8 (.str "0781234567") (.num 1000) 200 200
      (.obj [("access", .str "tokA")]) (.str "tokA") (.str "ok") rfl rfl rfl).2.1⟩

/-- C9: `cashout` is `cashin` with the cash-out URL substituted for the
cash-in URL: against a server answering the retargeted requests the same
way, it issues the retargeted trace and returns the identical result, with
the identical failure behaviour. -/
theorem cashout_refines_cashin (env : Net) (number amount : Json) :
    cashout env number amount =
      ((cashin (fun r => env (toCashout r)) number amount).1.map toCashout,
        (cashin (fun r => env (toCashout r)) number amount).2) := by
  have hauth : toCashout authReq = authReq := by decide
  have hreq : ∀ tok, toCashout (cashinReq number amount tok)
      = cashoutReq number amount tok := by
    intro tok
    simp [toCashout, cashinReq, cashoutReq, cashinUrl, cashoutUrl, bearerHeaders]
  cases hdo : decodeOutcome (env authReq) with
  | error e => simp [cashout, cashin, authorize, hauth, hdo]
  | ok auth =>
      cases hg : auth.getItem "access" with
      | error e => simp [cashout, cashin, authorize, hauth, hdo, hg]
      | ok tok => simp [cashout, cashin, authorize, hauth, hreq, hdo, hg]

/-- C10: loading the module itself calls `find_transaction` on the literal
reference `dbed4dbb-f1bd-433d-ba57-e383c5faa96b` — hence a fresh
`authorize` call stands first in its trace — and prints the result. -/
theorem module_load_calls_find (env : Net) :
    (moduleLoad env).1 = (find_transaction env testRef).1
    ∧ (moduleLoad env).1.head? = some authReq
    ∧ testRef = "dbed4dbb-f1bd-433d-ba57-e383c5faa96b"
    ∧ (∀ j, (find_transaction env testRef).2 = .ok j →
        (moduleLoad env).2 = .ok (j, pyStr j)) := by
  refine ⟨?_, ?_, rfl, ?_⟩
  · rcases hf : find_transaction env testRef with ⟨tr, r⟩
    cases r <;> simp [moduleLoad, hf]
  · have hc : (moduleLoad env).1 = (find_transaction env testRef).1 := by
      rcases hf : find_transaction env testRef with ⟨tr, r⟩
      cases r <;> simp [moduleLoad, hf]
    rw [hc]
    rcases find_trace_cases env testRef with h | ⟨tok, h⟩ <;> rw [h] <;> rfl
  · intro j hj
    rcases hf : find_transaction env testRef with ⟨tr, r⟩
    rw [hf] at hj
    cases r with
    | error e => exact absurd hj (by simp)
    | ok j2 =>
        simp only at hj
        cases hj
        simp [moduleLoad, hf]

theorem module_load_calls_find_witness :
    (moduleLoad envC10).2 =
      .ok (.obj [("message", .str "transaction not found")],
        pyStr (.obj [("message", .str "transaction not found")])) :=
  (module_load_calls_find envC10).2.2.2
    (.obj [("message", .str "transaction not found")]) rfl

end Paypack
